import Mathlib

/-!
Verification development for the Galil DMC controller utility
(`liger_galil_controller.py`), shallowly embedded in Lean.

Modelling conventions:
- bytes are naturals; the socket's incoming traffic is a script of chunks
  (one chunk per `recv` call), with fault-injection flags for the transport;
- Python float arithmetic is modelled as exact rational arithmetic;
- Python exceptions become an explicit error type threaded with `Except`;
- the observable I/O of a session (bytes written, socket closed) is recorded
  in a ghost event log carried by the link state.
-/

/-- A chunk of bytes returned by one `recv` call on the socket. -/
abbrev Chunk := List Nat

/-- Model of a connected TCP socket: the script of chunks the remote side
will deliver, plus fault-injection flags (`sendFails`: `sendall` raises a
socket error; `closeFails`: the underlying `close` raises). -/
structure Conn where
  pending : List Chunk
  sendFails : Bool
  closeFails : Bool
deriving DecidableEq

/-- Observable events of a session: bytes written to the wire, and a close
operation performed on the socket. -/
inductive Ev where
  | send (wire : String)
  | close
deriving DecidableEq

/-- State of a `GalilDMC` link: `sock` is `none` exactly when not connected
(Python `self.sock = None`); `log` is the ghost trace of observable events. -/
structure GalilDMC where
  sock : Option Conn
  log : List Ev
deriving DecidableEq

/-- The errors the link operations can raise. -/
inductive GErr where
  | notConnected
  | attributeError
  | remoteClosed
  | timeout
  | socketError
deriving DecidableEq

/-- Python `str.strip()` whitespace set, restricted to ASCII (every decoded
character here is ASCII): space, tab, newline, carriage return, vertical
tab, form feed. -/
def isPySpace (c : Char) : Bool :=
  c = ' ' || c = '\t' || c = '\n' || c = '\r' || c.toNat = 11 || c.toNat = 12

/-- Python `str.strip()`: remove leading and trailing whitespace. -/
def pyStrip (l : List Char) : List Char :=
  ((l.dropWhile isPySpace).reverse.dropWhile isPySpace).reverse

/-- Python `bytes.decode('ascii', errors='ignore')`: bytes at or above 0x80
are dropped, the rest decode to their ASCII character. -/
def decodeAscii (bs : List Nat) : List Char :=
  bs.filterMap (fun b => if b < 128 then some (Char.ofNat b) else none)

/-- The accumulation loop of `read_response` (source lines 52-61): receive
chunks, raising `ConnectionError` on an empty chunk, and stop as soon as a
chunk contains the terminator byte 58 (the character in the source's
`if b':' in chunk`); an exhausted script models the read timeout.  Returns
the outcome together with the chunks left unread. -/
def recvLoop (acc : List Nat) : List Chunk → Except GErr (List Nat) × List Chunk
  | [] => (.error .timeout, [])
  | c :: rest =>
    if c = [] then (.error .remoteClosed, rest)
    else if 58 ∈ c then (.ok (acc ++ c), rest)
    else recvLoop (acc ++ c) rest

/-- The post-processing of `read_response` (source lines 67-71): decode the
accumulated bytes, strip whitespace, and if the result ends with the
terminator remove that one character and strip again. -/
def postprocess (bs : List Nat) : List Char :=
  let t := pyStrip (decodeAscii bs)
  if t.getLast? = some ':' then pyStrip t.dropLast else t

/-- `GalilDMC.read_response` (source lines 51-71).  With no socket present
the Python body dereferences `None` and dies with an `AttributeError`,
modelled as `GErr.attributeError`; note it is not the `ConnectionError`
that `send_command` raises. -/
def read_response (g : GalilDMC) : Except GErr (List Char) × GalilDMC :=
  match g.sock with
  | none => (.error .attributeError, g)
  | some c =>
    let r := recvLoop [] c.pending
    let g2 : GalilDMC := { g with sock := some { c with pending := r.2 } }
    match r.1 with
    | .error e => (.error e, g2)
    | .ok bs => (.ok (postprocess bs), g2)

/-- Wire form of a command: `command.strip() + '\r'` (source line 43). -/
def wireOf (command : String) : String :=
  (⟨pyStrip command.data⟩ : String) ++ "\r"

/-- `GalilDMC.send_command` (source lines 38-49): raise `ConnectionError`
when no socket is present, otherwise transmit the wire bytes and read the
response.  A socket error during `sendall` propagates with the link state
unchanged (the Python handler just prints and re-raises). -/
def send_command (g : GalilDMC) (command : String) : Except GErr (List Char) × GalilDMC :=
  match g.sock with
  | none => (.error .notConnected, g)
  | some c =>
    if c.sendFails then (.error .socketError, g)
    else read_response { g with log := g.log ++ [Ev.send (wireOf command)] }

/-- `GalilDMC._close` (source lines 73-82): if a socket is present, close it
— swallowing any error the underlying close raises, which is why
`closeFails` is deliberately never consulted — and set the handle to
`none`; with no socket present, do nothing at all. -/
def _close (g : GalilDMC) : GalilDMC :=
  match g.sock with
  | none => g
  | some _ => { sock := none, log := g.log ++ [Ev.close] }

/-- Truncation toward zero of a rational: Python `int(...)` applied to the
(exactly modelled) float value. -/
def ratTrunc (q : ℚ) : ℤ := q.num.tdiv q.den

/-- `STEPS_PER_REV_FULL = 200.0` (source line 100). -/
def STEPS_PER_REV_FULL : ℚ := 200

/-- `steps_per_degree = (STEPS_PER_REV_FULL * microsteps) / 360.0`
(source line 101). -/
def steps_per_degree (microsteps : ℚ) : ℚ :=
  STEPS_PER_REV_FULL * microsteps / 360

/-- `int(value * steps_per_degree)`: the conversion applied alike to the
travel, the speed and the acceleration (source lines 103-105). -/
def toCounts (x cpd : ℚ) : ℤ := ratTrunc (x * cpd)

/-- Issue a list of commands in order over the link, stopping at the first
failure (the Python sequencers call `send_command` serially and let the
first exception propagate). -/
def sendSeq (g : GalilDMC) : List String → Except (GErr × GalilDMC) GalilDMC
  | [] => .ok g
  | cmd :: rest =>
    match send_command g cmd with
    | (.ok _, g2) => sendSeq g2 rest
    | (.error e, g2) => .error (e, g2)

/-- `test_stepper_motor` (source lines 84-138): convert the physical units
to counts, issue the ten commands ST MT KS SH SP AC DC PR BG MC in order,
then close the link.  The command strings reproduce the Python f-strings
byte for byte, including the absent semicolons on AC and DC. -/
def test_stepper_motor (g : GalilDMC) (axis : String)
    (degrees microsteps speed_deg accel_deg : ℚ)
    (active_high : Bool) (smoothing : ℤ) : Except (GErr × GalilDMC) GalilDMC :=
  let spd := steps_per_degree microsteps
  let counts := toCounts degrees spd
  let speed_counts := toCounts speed_deg spd
  let accel_counts := toCounts accel_deg spd
  let mt_value : ℤ := if active_high then -2 else 2
  match sendSeq g
      ["ST " ++ axis ++ ";",
       "MT" ++ axis ++ "=" ++ toString mt_value ++ ";",
       "KS" ++ axis ++ "=" ++ toString smoothing ++ ";",
       "SH " ++ axis ++ ";",
       "SP" ++ axis ++ "=" ++ toString speed_counts ++ ";",
       "AC" ++ axis ++ "=" ++ toString accel_counts,
       "DC" ++ axis ++ "=" ++ toString accel_counts,
       "PR" ++ axis ++ "=" ++ toString counts ++ ";",
       "BG " ++ axis ++ ";",
       "MC " ++ axis ++ ";"] with
  | .error e => .error e
  | .ok g2 => .ok (_close g2)

/-- `disable_stepper_motor` (source lines 140-147): one motor-off command,
then close the link. -/
def disable_stepper_motor (g : GalilDMC) (axis : String) :
    Except (GErr × GalilDMC) GalilDMC :=
  match send_command g ("MO " ++ axis ++ ";") with
  | (.error e, g2) => .error (e, g2)
  | (.ok _, g2) => .ok (_close g2)

/-- Bit test of `test_switch` line 172: `(value >> 1) & 1`. -/
def is_home_inactive (value : Nat) : Nat := (value >>> 1) &&& 1

/-- Bit test of `test_switch` line 173: `(value >> 2) & 1`. -/
def is_rev_inactive (value : Nat) : Nat := (value >>> 2) &&& 1

/-- Bit test of `test_switch` line 174: `(value >> 3) & 1`. -/
def is_fwd_inactive (value : Nat) : Nat := (value >>> 3) &&& 1

/-- `"OFF" if is_home_inactive else "ON"` (line 180) — Python truthiness:
any nonzero value selects "OFF". -/
def home_status (value : Nat) : String :=
  if is_home_inactive value ≠ 0 then "OFF" else "ON"

/-- `"OFF" if is_rev_inactive else "ON"` (line 181). -/
def rev_status (value : Nat) : String :=
  if is_rev_inactive value ≠ 0 then "OFF" else "ON"

/-- `"OFF" if is_fwd_inactive else "ON"` (line 182). -/
def fwd_status (value : Nat) : String :=
  if is_fwd_inactive value ≠ 0 then "OFF" else "ON"

/-- The switch decoder of `test_switch`: home, forward-limit and
reverse-limit states, in the order the table prints them. -/
def statusDecoder (value : Nat) : String × String × String :=
  (home_status value, fwd_status value, rev_status value)

/-- A freshly connected link whose remote answers every command with a bare
terminator byte. -/
def readyLink (n : Nat) : GalilDMC :=
  ⟨some ⟨List.replicate n [58], false, false⟩, []⟩

/-- A connected link whose remote will deliver the single chunk "OK:". -/
def okLink : GalilDMC := ⟨some ⟨[[79, 75, 58]], false, false⟩, []⟩

/-- A connected link whose remote will deliver the single chunk "OK::". -/
def okColonLink : GalilDMC := ⟨some ⟨[[79, 75, 58, 58]], false, false⟩, []⟩

/-- If `dropWhile p` leaves a first element, that element fails `p`. -/
theorem head?_dropWhile_false {α : Type} (p : α → Bool) :
    ∀ (l : List α) {a : α}, (l.dropWhile p).head? = some a → p a = false := by
  intro l
  induction l with
  | nil => intro a h; simp [List.dropWhile] at h
  | cons x xs ih =>
    intro a h
    cases hx : p x with
    | true =>
      rw [List.dropWhile_cons_of_pos hx] at h
      exact ih h
    | false =>
      rw [List.dropWhile_cons_of_neg (by simp [hx])] at h
      simp only [List.head?_cons, Option.some.injEq] at h
      rwa [← h]

/-- `dropWhile` removes only a prefix, so a nonempty result keeps the last
element of the list. -/
theorem getLast?_dropWhile {α : Type} (p : α → Bool) :
    ∀ (l : List α), l.dropWhile p ≠ [] → (l.dropWhile p).getLast? = l.getLast? := by
  intro l
  induction l with
  | nil => intro h; simp [List.dropWhile] at h
  | cons x xs ih =>
    intro h
    cases hx : p x with
    | false => rw [List.dropWhile_cons_of_neg (by simp [hx])]
    | true =>
      rw [List.dropWhile_cons_of_pos hx] at h ⊢
      have hxs : xs ≠ [] := by
        intro he
        rw [he] at h
        simp [List.dropWhile] at h
      rw [ih h]
      cases xs with
      | nil => exact absurd rfl hxs
      | cons y ys => rw [List.getLast?_cons_cons]

/-- The last character of a stripped string is never whitespace. -/
theorem pyStrip_getLast? (l : List Char) {c : Char}
    (h : (pyStrip l).getLast? = some c) : isPySpace c = false := by
  unfold pyStrip at h
  rw [List.getLast?_reverse] at h
  exact head?_dropWhile_false _ _ h

/-- The first character of a stripped string is never whitespace. -/
theorem pyStrip_head? (l : List Char) {c : Char}
    (h : (pyStrip l).head? = some c) : isPySpace c = false := by
  unfold pyStrip at h
  rw [List.head?_reverse] at h
  have hne : List.dropWhile isPySpace ((l.dropWhile isPySpace).reverse) ≠ [] := by
    intro he
    rw [he] at h
    simp at h
  rw [getLast?_dropWhile _ _ hne, List.getLast?_reverse] at h
  exact head?_dropWhile_false _ _ h

/-- `dropWhile` is the identity when the first element already fails `p`. -/
theorem dropWhile_eq_self_of_head {α : Type} (p : α → Bool) (l : List α)
    (h : ∀ a, l.head? = some a → p a = false) : l.dropWhile p = l := by
  cases l with
  | nil => rfl
  | cons x xs => exact List.dropWhile_cons_of_neg (by simp [h x rfl])

/-- Stripping a string whose two ends are not whitespace changes nothing. -/
theorem pyStrip_eq_self (l : List Char)
    (h1 : ∀ a, l.head? = some a → isPySpace a = false)
    (h2 : ∀ a, l.getLast? = some a → isPySpace a = false) : pyStrip l = l := by
  unfold pyStrip
  rw [dropWhile_eq_self_of_head _ _ h1]
  rw [dropWhile_eq_self_of_head _ _ (by
    intro a ha
    rw [List.head?_reverse] at ha
    exact h2 a ha)]
  exact List.reverse_reverse l

/-- A motor-off command is already stripped: its wire form just appends the
carriage return. -/
theorem wireOf_MO (axis : String) :
    wireOf ("MO " ++ axis ++ ";") = "MO " ++ axis ++ ";" ++ "\r" := by
  have hd : ("MO " ++ axis ++ ";").data = ('M' :: 'O' :: ' ' :: axis.data) ++ [';'] := by
    rw [String.data_append, String.data_append]
    simp
  unfold wireOf
  rw [show pyStrip ("MO " ++ axis ++ ";").data = ("MO " ++ axis ++ ";").data from by
    apply pyStrip_eq_self
    · intro a ha
      rw [hd] at ha
      simp only [List.cons_append, List.head?_cons, Option.some.injEq] at ha
      rw [← ha]
      decide
    · intro a ha
      rw [hd, List.getLast?_concat] at ha
      simp only [Option.some.injEq] at ha
      rw [← ha]
      decide]

/-- Truncation toward zero agrees with the floor on nonnegative rationals. -/
theorem ratTrunc_nonneg (q : ℚ) (h : 0 ≤ q) : ratTrunc q = ⌊q⌋ := by
  unfold ratTrunc
  rw [Rat.floor_def]
  exact Int.tdiv_eq_ediv (Rat.num_nonneg.mpr h) (Int.natCast_nonneg _)

/-- Truncation toward zero agrees with the ceiling on nonpositive rationals. -/
theorem ratTrunc_nonpos (q : ℚ) (h : q ≤ 0) : ratTrunc q = ⌈q⌉ := by
  have h2 : ratTrunc q = -ratTrunc (-q) := by
    unfold ratTrunc
    rw [Rat.neg_num, Rat.neg_den, Int.neg_tdiv, neg_neg]
  rw [h2, ratTrunc_nonneg (-q) (neg_nonneg.mpr h), Int.floor_neg, neg_neg]

/-- Truncation of an integer value is that integer. -/
theorem ratTrunc_intCast (n : ℤ) : ratTrunc (n : ℚ) = n := by
  unfold ratTrunc
  rw [Rat.num_intCast, Rat.den_intCast]
  simp [Int.tdiv_one]

/-- 720 degrees at one microstep convert to 400 counts. -/
theorem counts_of_720 : toCounts 720 (steps_per_degree 1) = 400 := by
  have e : (720 * steps_per_degree 1 : ℚ) = ((400 : ℤ) : ℚ) := by
    norm_num [steps_per_degree, STEPS_PER_REV_FULL]
  unfold toCounts
  rw [e, ratTrunc_intCast]

/-- 180 degrees per second at one microstep convert to 100 counts. -/
theorem counts_of_180 : toCounts 180 (steps_per_degree 1) = 100 := by
  have e : (180 * steps_per_degree 1 : ℚ) = ((100 : ℤ) : ℚ) := by
    norm_num [steps_per_degree, STEPS_PER_REV_FULL]
  unfold toCounts
  rw [e, ratTrunc_intCast]

/-- 360 degrees per second squared at one microstep convert to 200 counts. -/
theorem counts_of_360 : toCounts 360 (steps_per_degree 1) = 200 := by
  have e : (360 * steps_per_degree 1 : ℚ) = ((200 : ℤ) : ℚ) := by
    norm_num [steps_per_degree, STEPS_PER_REV_FULL]
  unfold toCounts
  rw [e, ratTrunc_intCast]

/-- The bit tests of `test_switch` compute exactly `Nat.testBit`. -/
theorem and_one_ne_iff_testBit (v k : Nat) :
    ((v >>> k) &&& 1 ≠ 0) ↔ v.testBit k = true := by
  simp [Nat.testBit, Nat.and_comm]

/-- C4: for every microstepping value m > 0, countsPerDegree(m) = (200*m)/360,
and toCounts(x, cpd) = x*cpd truncated toward zero (floor on nonnegative
values, ceiling on nonpositive ones); degrees, speed, and acceleration are
all converted by this same truncating rule (`toCounts` is the single
conversion used for all three in `test_stepper_motor`). -/
theorem unitConverter_C4 (m : ℚ) (_hm : 0 < m) :
    steps_per_degree m = 200 * m / 360 ∧
    ∀ x cpd : ℚ,
      (0 ≤ x * cpd → toCounts x cpd = ⌊x * cpd⌋) ∧
      (x * cpd ≤ 0 → toCounts x cpd = ⌈x * cpd⌉) := by
  refine ⟨by simp [steps_per_degree, STEPS_PER_REV_FULL], ?_⟩
  intro x cpd
  exact ⟨fun h => ratTrunc_nonneg _ h, fun h => ratTrunc_nonpos _ h⟩

/-- C4 witness: the theorem instantiated at m = 1, x = 720. -/
theorem unitConverter_C4_witness :
    steps_per_degree 1 = 200 * 1 / 360 ∧
    (0 ≤ (720 : ℚ) * steps_per_degree 1 →
      toCounts 720 (steps_per_degree 1) = ⌊(720 : ℚ) * steps_per_degree 1⌋) :=
  ⟨(unitConverter_C4 1 one_pos).1,
   ((unitConverter_C4 1 one_pos).2 720 (steps_per_degree 1)).1⟩

/-- C5: the status decoder inspects bits 1 (home), 2 (reverse limit) and
3 (forward limit), reporting ON when the bit is clear and OFF when it is
set, for every nonnegative register value; value 0 gives Home=ON,
Forward=ON, Reverse=ON and value 14 gives Home=OFF, Forward=OFF,
Reverse=OFF. -/
theorem statusDecoder_C5 (v : Nat) :
    (home_status v = if v.testBit 1 = true then "OFF" else "ON") ∧
    (rev_status v = if v.testBit 2 = true then "OFF" else "ON") ∧
    (fwd_status v = if v.testBit 3 = true then "OFF" else "ON") ∧
    statusDecoder 0 = ("ON", "ON", "ON") ∧
    statusDecoder 14 = ("OFF", "OFF", "OFF") := by
  refine ⟨?_, ?_, ?_, by decide, by decide⟩
  · unfold home_status is_home_inactive
    by_cases h : v.testBit 1 = true
    · rw [if_pos ((and_one_ne_iff_testBit v 1).mpr h), if_pos h]
    · rw [if_neg (fun hc => h ((and_one_ne_iff_testBit v 1).mp hc)), if_neg h]
  · unfold rev_status is_rev_inactive
    by_cases h : v.testBit 2 = true
    · rw [if_pos ((and_one_ne_iff_testBit v 2).mpr h), if_pos h]
    · rw [if_neg (fun hc => h ((and_one_ne_iff_testBit v 2).mp hc)), if_neg h]
  · unfold fwd_status is_fwd_inactive
    by_cases h : v.testBit 3 = true
    · rw [if_pos ((and_one_ne_iff_testBit v 3).mpr h), if_pos h]
    · rw [if_neg (fun hc => h ((and_one_ne_iff_testBit v 3).mp hc)), if_neg h]

/-- C6 counterexample: on a link whose handle is absent, `read_response`
fails with the attribute error from dereferencing `None`, which is not the
`NotConnected` connection-state error the claim promises. -/
theorem readResponse_noSock_cex :
    (read_response ⟨none, []⟩).1 = .error .attributeError ∧
    GErr.attributeError ≠ GErr.notConnected :=
  ⟨rfl, by decide⟩

/-- C6 (amended): whenever the socket handle is absent, `send_command`
fails with the connection-state error `NotConnected` and leaves the state
unchanged, while a direct `read_response` also fails — but with the
attribute error from the absent handle, not with `NotConnected`. -/
theorem noSock_C6 (g : GalilDMC) (cmd : String) (h : g.sock = none) :
    send_command g cmd = (.error .notConnected, g) ∧
    read_response g = (.error .attributeError, g) := by
  unfold send_command read_response
  rw [h]
  exact ⟨rfl, rfl⟩

/-- C6 witness: the amended theorem at a concrete never-connected link. -/
theorem noSock_C6_witness :
    send_command ⟨none, []⟩ ("TS A") = (.error .notConnected, ⟨none, []⟩) ∧
    read_response ⟨none, []⟩ = (.error .attributeError, ⟨none, []⟩) :=
  noSock_C6 ⟨none, []⟩ ("TS A") rfl

/-- C8: `_close` is idempotent — after any call the handle is absent (no
matter whether the underlying close would raise, which the `closeFails`
flag records and `_close` ignores), a second call changes nothing, and in
particular it performs no second operation on the socket: the event log
gains no second close entry. -/
theorem close_C8 (g : GalilDMC) :
    (_close g).sock = none ∧
    _close (_close g) = _close g ∧
    (_close (_close g)).log = (_close g).log ∧
    ∀ pending sf log, _close ⟨some ⟨pending, sf, true⟩, log⟩ = ⟨none, log ++ [Ev.close]⟩ := by
  obtain ⟨sock, log⟩ := g
  cases sock with
  | none => exact ⟨rfl, rfl, rfl, fun _ _ _ => rfl⟩
  | some c => exact ⟨rfl, rfl, rfl, fun _ _ _ => rfl⟩

/-- C1: EnableAndMove on axis A, 720 degrees, microsteps 1, speed 180 deg/s,
acceleration 360 deg/s^2 programs exactly 400 into the relative-position
register, 100 into the speed register and 200 into the acceleration and
deceleration registers, issuing stop, motor-type, smoothing, energize,
speed, acceleration, deceleration, relative-position, begin and
motion-complete-wait in that order, and then closes the link. -/
theorem enableAndMove_C1 :
    test_stepper_motor (readyLink 10) ("A") 720 1 180 360 true 2
      = .ok ⟨none,
        [Ev.send ("ST A;\r"), Ev.send ("MTA=-2;\r"), Ev.send ("KSA=2;\r"),
         Ev.send ("SH A;\r"), Ev.send ("SPA=100;\r"), Ev.send ("ACA=200\r"),
         Ev.send ("DCA=200\r"), Ev.send ("PRA=400;\r"), Ev.send ("BG A;\r"),
         Ev.send ("MC A;\r"), Ev.close]⟩ := by
  simp only [test_stepper_motor, counts_of_720, counts_of_180, counts_of_360]
  rfl

/-- C7: Disable on a connected link issues exactly one command — the
motor-off command for the axis — and then closes the link: the event log
gains precisely one send of `MO <axis>;` followed by the close, and the
handle ends up absent. -/
theorem disable_C7 (axis : String) (log : List Ev) (pending : List Chunk)
    (cf : Bool) (bs : List Nat) (rest : List Chunk)
    (hrecv : recvLoop [] pending = (.ok bs, rest)) :
    disable_stepper_motor ⟨some ⟨pending, false, cf⟩, log⟩ axis
      = .ok ⟨none, log ++ [Ev.send ("MO " ++ axis ++ ";" ++ "\r"), Ev.close]⟩ := by
  have h1 : send_command ⟨some ⟨pending, false, cf⟩, log⟩ ("MO " ++ axis ++ ";")
      = (Except.ok (postprocess bs),
         ⟨some ⟨rest, false, cf⟩, log ++ [Ev.send ("MO " ++ axis ++ ";" ++ "\r")]⟩) := by
    have e : send_command ⟨some ⟨pending, false, cf⟩, log⟩ ("MO " ++ axis ++ ";")
        = read_response ⟨some ⟨pending, false, cf⟩,
            log ++ [Ev.send (wireOf ("MO " ++ axis ++ ";"))]⟩ := rfl
    rw [e, wireOf_MO]
    unfold read_response
    simp only [hrecv]
  unfold disable_stepper_motor
  rw [h1]
  simp [_close, List.append_assoc]

/-- C7 witness: the theorem at axis A on a concrete connected link. -/
theorem disable_C7_witness :
    disable_stepper_motor ⟨some ⟨[[58]], false, false⟩, []⟩ ("A")
      = .ok ⟨none, [] ++ [Ev.send ("MO " ++ "A" ++ ";" ++ "\r"), Ev.close]⟩ :=
  disable_C7 ("A") [] [[58]] false [58] [] rfl

/-- C2 counterexample: the delivered stream "OK::" contains the terminator,
yet `ReadResponse` returns "OK:", which still ends with the terminator
character — only one trailing terminator is ever removed. -/
theorem readResponse_trailing_cex :
    (read_response okColonLink).1 = .ok (['O', 'K', ':']) ∧
    (['O', 'K', ':']).getLast? = some ':' :=
  ⟨rfl, rfl⟩

/-- C2 (amended): for every byte stream that contains the terminator,
`ReadResponse` returns a string with no leading and no trailing whitespace;
exactly one trailing terminator is removed, so the result is free of a
trailing terminator whenever removing one trailing terminator from the
trimmed decoded stream does not leave another one exposed (accumulated
input "OK::" still yields "OK:"). -/
theorem readResponse_C2 (g : GalilDMC) (c : Conn) (bs : List Nat)
    (rest : List Chunk) (hc : g.sock = some c)
    (hrecv : recvLoop [] c.pending = (.ok bs, rest)) :
    (read_response g).1 = .ok (postprocess bs) ∧
    (∀ a, (postprocess bs).head? = some a → isPySpace a = false) ∧
    (∀ a, (postprocess bs).getLast? = some a → isPySpace a = false) ∧
    ((pyStrip ((pyStrip (decodeAscii bs)).dropLast)).getLast? ≠ some ':' →
      (postprocess bs).getLast? ≠ some ':') := by
  refine ⟨?_, ?_, ?_, ?_⟩
  · unfold read_response
    rw [hc]
    simp only [hrecv]
  · intro a ha
    unfold postprocess at ha
    by_cases ht : (pyStrip (decodeAscii bs)).getLast? = some ':'
    · rw [if_pos ht] at ha
      exact pyStrip_head? _ ha
    · rw [if_neg ht] at ha
      exact pyStrip_head? _ ha
  · intro a ha
    unfold postprocess at ha
    by_cases ht : (pyStrip (decodeAscii bs)).getLast? = some ':'
    · rw [if_pos ht] at ha
      exact pyStrip_getLast? _ ha
    · rw [if_neg ht] at ha
      exact pyStrip_getLast? _ ha
  · intro hnc
    unfold postprocess
    by_cases ht : (pyStrip (decodeAscii bs)).getLast? = some ':'
    · rw [if_pos ht]
      exact hnc
    · rw [if_neg ht]
      exact ht

/-- C2 witness: the amended theorem on the link delivering "OK:". -/
theorem readResponse_C2_witness :
    (read_response okLink).1 = .ok (postprocess ([79, 75, 58])) ∧
    (∀ a, (postprocess ([79, 75, 58])).head? = some a → isPySpace a = false) ∧
    (∀ a, (postprocess ([79, 75, 58])).getLast? = some a → isPySpace a = false) ∧
    ((pyStrip ((pyStrip (decodeAscii ([79, 75, 58]))).dropLast)).getLast? ≠ some ':' →
      (postprocess ([79, 75, 58])).getLast? ≠ some ':') :=
  readResponse_C2 okLink ⟨[[79, 75, 58]], false, false⟩ ([79, 75, 58]) [] rfl rfl

/-- C3: `ReadResponse` strips at most one trailing terminator — after
decoding and trimming, a string ending in the terminator loses exactly one
trailing ':' and is re-trimmed, and otherwise is returned as is; hence the
accumulated input "OK:" yields "OK" while "OK::" yields "OK:". -/
theorem stripOnce_C3 :
    (∀ bs : List Nat,
      ((pyStrip (decodeAscii bs)).getLast? = some ':' →
        postprocess bs = pyStrip ((pyStrip (decodeAscii bs)).dropLast)) ∧
      ((pyStrip (decodeAscii bs)).getLast? ≠ some ':' →
        postprocess bs = pyStrip (decodeAscii bs))) ∧
    (read_response okLink).1 = .ok (['O', 'K']) ∧
    (read_response okColonLink).1 = .ok (['O', 'K', ':']) := by
  refine ⟨fun bs => ⟨fun h => ?_, fun h => ?_⟩, rfl, rfl⟩
  · unfold postprocess
    rw [if_pos h]
  · unfold postprocess
    rw [if_neg h]

/-- C3 witness: the general clause evaluated on the accumulated bytes of
"OK:", whose trimmed decoding ends with the terminator. -/
theorem stripOnce_C3_witness :
    postprocess ([79, 75, 58]) = pyStrip ((pyStrip (decodeAscii ([79, 75, 58]))).dropLast) :=
  (stripOnce_C3.1 ([79, 75, 58])).1 (by decide)

/-- `read_response` on a connected link keeps a socket handle, consuming
only the chunks the receive loop read. -/
theorem read_keeps_sock (p : List Chunk) (sf cfl : Bool) (log : List Ev) :
    ((read_response ⟨some ⟨p, sf, cfl⟩, log⟩).2).sock
      = some ⟨(recvLoop [] p).2, sf, cfl⟩ := by
  unfold read_response
  rcases hrl : recvLoop [] p with ⟨r1, r2⟩
  cases r1 with
  | error e => simp [hrl]
  | ok bs => simp [hrl]

/-- `send_command` on a connected link never clears the handle, whatever
the outcome of the exchange. -/
theorem send_keeps_sock (g : GalilDMC) (c : Conn) (cmd : String)
    (hc : g.sock = some c) : ((send_command g cmd).2).sock.isSome = true := by
  obtain ⟨sock, log⟩ := g
  obtain ⟨p, sf, cfl⟩ := c
  change sock = some ⟨p, sf, cfl⟩ at hc
  subst hc
  cases sf with
  | true => rfl
  | false =>
    have h := read_keeps_sock p false cfl (log ++ [Ev.send (wireOf cmd)])
    change ((read_response ⟨some ⟨p, false, cfl⟩,
      log ++ [Ev.send (wireOf cmd)]⟩).2).sock.isSome = true
    rw [h]
    rfl

/-- C10: when `send_command` fails with a transport-level error (a socket
error during the send), the link state is unchanged — the handle is still
present — so a subsequent `send_command` on the same link does not fail
with `NotConnected` but attempts the exchange again on the same socket;
more generally no `send_command` on a connected link ever clears the
handle. -/
theorem sendFail_frame_C10 (pending : List Chunk) (cf : Bool) (log : List Ev)
    (cmd cmd2 : String) :
    send_command ⟨some ⟨pending, true, cf⟩, log⟩ cmd
      = (.error .socketError, ⟨some ⟨pending, true, cf⟩, log⟩) ∧
    ((send_command ⟨some ⟨pending, true, cf⟩, log⟩ cmd).2).sock
      = some ⟨pending, true, cf⟩ ∧
    (send_command ((send_command ⟨some ⟨pending, true, cf⟩, log⟩ cmd).2) cmd2).1
      ≠ .error .notConnected ∧
    ∀ (g2 : GalilDMC) (c2 : Conn) (cmd3 : String), g2.sock = some c2 →
      ((send_command g2 cmd3).2).sock.isSome = true := by
  refine ⟨rfl, rfl, ?_, fun g2 c2 cmd3 h2 => send_keeps_sock g2 c2 cmd3 h2⟩
  intro h
  exact absurd (Except.error.inj h) (by decide)

/-- C10 witness: the theorem at a concrete faulty link, with the general
handle-preservation clause discharged on a concrete connected link. -/
theorem sendFail_frame_C10_witness :
    send_command ⟨some ⟨[], true, false⟩, []⟩ ("ST A;")
      = (.error .socketError, ⟨some ⟨[], true, false⟩, []⟩) ∧
    ((send_command ⟨some ⟨[], true, false⟩, []⟩ ("TS A")).2).sock.isSome = true :=
  ⟨(sendFail_frame_C10 [] false [] ("ST A;") ("TS A")).1,
   (sendFail_frame_C10 [] false [] ("ST A;") ("TS A")).2.2.2
     ⟨some ⟨[], true, false⟩, []⟩ ⟨[], true, false⟩ ("TS A") rfl⟩
